import Mathlib

/-!
Shallow embedding of the CinemaOS story-generation service
(`src/services/story_generation.py`, class `StoryGenerationService`) and of the
citation-extraction part of the RAG query service
(`src/services/gemini_file_search.py`, method `query_rag`).

The external Gemini provider is modelled as a function from the variation index
and the request that the service builds to an outcome: either a response
(optional text, optional usage-token count) or a raised exception.  The
embedding of `generate_stories` additionally returns the list of provider
requests actually issued, in order, so that call-count properties can be
stated.  Python's `float` temperature is modelled as `ℚ`: the service only
passes it through, never computes with it.
-/

namespace CinemaOS

/-- The ASCII whitespace characters recognised by Python's `str.split()`
(space, tab, newline, carriage return, vertical tab, form feed).  The stories
relevant here are ASCII; Python additionally treats some Unicode spaces as
whitespace, which the claims do not exercise. -/
def isPySpace (c : Char) : Bool :=
  c = ' ' || c = '\t' || c = '\n' || c = '\r' || c = '\x0b' || c = '\x0c'

/-- Accumulator-style splitter behind `pySplit`: walks the character list,
collecting the current word in reverse in `acc`. -/
def wordsAux : List Char → List Char → List String
  | [], [] => []
  | [], acc => [String.mk acc.reverse]
  | c :: cs, acc =>
    if isPySpace c then
      match acc with
      | [] => wordsAux cs []
      | _ => String.mk acc.reverse :: wordsAux cs []
    else wordsAux cs (c :: acc)

/-- Python's `s.split()` with no separator: splits on runs of whitespace and
never yields empty tokens. -/
def pySplit (s : String) : List String :=
  wordsAux s.toList []

/-- `len(s.split())`, the word count computed at
`src/services/story_generation.py` line 148. -/
def pyWordCount (s : String) : Nat :=
  (pySplit s).length

/-- `int(target_word_count * 1.5)` (line 71).  For a natural-number word
count this float computation is exact and equals `⌊3·w / 2⌋`. -/
def maxTokensLimit (w : Nat) : Nat :=
  3 * w / 2

/-- First literal segment of the per-variation f-string prompt (lines 98-112),
up to the interpolated story idea. -/
def promptPart1 : String :=
  "\n                STORY IDEA: "

/-- Second literal segment of the prompt, between the story idea and the
interpolated variation number. -/
def promptPart2 : String :=
  "\n                \n                TASK: Write a unique story variation based on the idea above.\n                VARIATION NUMBER: "

/-- Third literal segment of the prompt, between the variation number and the
interpolated target word count. -/
def promptPart3 : String :=
  "\n                \n                REQUIREMENTS:\n                - Tone: Cinematic and Engaging\n                - Structure: Clear beginning, middle, and end\n                - Length: Approximately "

/-- Final literal segment of the prompt, after the target word count. -/
def promptPart4 : String :=
  " words\n                - Make this version distinct from a standard interpretation.\n                \n                STORY:\n                "

/-- The f-string prompt of lines 98-112, for 1-based variation number `n`
(the code interpolates `i + 1`) and target word count `w`. -/
def buildPrompt (idea : String) (n : Nat) (w : Nat) : String :=
  promptPart1 ++ idea ++ promptPart2 ++ toString n ++ promptPart3 ++ toString w ++ promptPart4

/-- The four `SafetySetting` entries of lines 76-93, as
(category, threshold) pairs. -/
def safetySettings : List (String × String) :=
  [("HARM_CATEGORY_HARASSMENT", "BLOCK_NONE"),
   ("HARM_CATEGORY_HATE_SPEECH", "BLOCK_NONE"),
   ("HARM_CATEGORY_SEXUALLY_EXPLICIT", "BLOCK_NONE"),
   ("HARM_CATEGORY_DANGEROUS_CONTENT", "BLOCK_NONE")]

/-- The `system_instruction` passed on line 122. -/
def systemInstructionText : String :=
  "You are a professional screenwriter and creative storyteller."

/-- The arguments of `generate_stories` that the claims quantify over. -/
structure GenerationConfig where
  storyIdea : String
  numberOfVariations : Nat
  targetWordCount : Nat
  temperature : ℚ
deriving DecidableEq

/-- One `generate_content` call as issued by lines 115-123: model name,
prompt, and the `GenerateContentConfig` fields. -/
structure Request where
  model : String
  prompt : String
  temperature : ℚ
  maxOutputTokens : Nat
  safety : List (String × String)
  systemInstruction : String
deriving DecidableEq

/-- The request built inside the loop for 0-based loop index `i`
(the prompt interpolates `i + 1`). -/
def mkRequest (modelName : String) (cfg : GenerationConfig) (i : Nat) : Request :=
  { model := modelName
  , prompt := buildPrompt cfg.storyIdea (i + 1) cfg.targetWordCount
  , temperature := cfg.temperature
  , maxOutputTokens := maxTokensLimit cfg.targetWordCount
  , safety := safetySettings
  , systemInstruction := systemInstructionText }

/-- Outcome of one provider call: a response whose `.text` may be `None`
(`none`) or empty, with an optional `usage_metadata.total_token_count`; or a
raised exception carrying a message. -/
inductive ProviderOutcome where
  | ok (text : Option String) (usage : Option Nat)
  | exn (msg : String)
deriving DecidableEq

/-- `response.text` of a non-raising outcome. -/
def ProviderOutcome.text : ProviderOutcome → Option String
  | ProviderOutcome.ok t _ => t
  | ProviderOutcome.exn _ => none

/-- `usage_metadata.total_token_count` of a non-raising outcome, `none` when
the metadata is absent. -/
def ProviderOutcome.usage : ProviderOutcome → Option Nat
  | ProviderOutcome.ok _ u => u
  | ProviderOutcome.exn _ => none

/-- Whether the outcome is a raised exception. -/
def ProviderOutcome.isExn : ProviderOutcome → Bool
  | ProviderOutcome.ok _ _ => false
  | ProviderOutcome.exn _ => true

/-- The error placeholder substituted on line 134 when the response text is
empty, for 1-based variation number `n`. -/
def placeholderText (n : Nat) : String :=
  "[Error: The model was unable to generate Variation " ++ toString n ++
    ". It may have been overloaded or triggered a strict filter.]"

/-- Lines 129-134: `story_text = response.text if response.text else ""`,
then the placeholder when that is empty.  `i` is the 0-based loop index. -/
def storyTextOf (i : Nat) (text : Option String) : String :=
  let t := text.getD ""
  if t = "" then placeholderText (i + 1) else t

/-- One story record as assembled on lines 142-149. -/
structure Story where
  id : Nat
  title : String
  content : String
  wordCount : Nat
  tokensUsed : Nat
deriving DecidableEq

/-- The story dict built on lines 142-149 for 0-based loop index `i` from the
response fields. -/
def mkStory (i : Nat) (text : Option String) (usage : Option Nat) : Story :=
  { id := i + 1
  , title := "Story Variation " ++ toString (i + 1)
  , content := storyTextOf i text
  , wordCount := pyWordCount (storyTextOf i text)
  , tokensUsed := usage.getD 0 }

/-- The dict returned by `generate_stories`. -/
structure GenerationResult where
  stories : List Story
  error : Option String
deriving DecidableEq

/-- The `for i in range(number_of_variations)` loop (lines 96-151) together
with the surrounding `try`: processes `remaining` variations starting at
0-based index `i`.  A raised provider exception aborts the loop (the `except`
on line 160 catches it).  Also returns the provider requests issued, in
order, including the one that raised. -/
def genLoop (modelName : String) (provider : Nat → Request → ProviderOutcome)
    (cfg : GenerationConfig) : Nat → Nat → Except String (List Story) × List Request
  | 0, _ => (Except.ok [], [])
  | remaining + 1, i =>
    let req := mkRequest modelName cfg i
    match provider i req with
    | ProviderOutcome.exn msg => (Except.error msg, [req])
    | ProviderOutcome.ok text usage =>
      match genLoop modelName provider cfg remaining (i + 1) with
      | (Except.error msg, trace) => (Except.error msg, req :: trace)
      | (Except.ok rest, trace) => (Except.ok (mkStory i text usage :: rest), req :: trace)

/-- `StoryGenerationService.generate_stories` (lines 42-165).
`isConfigured` is `self.is_configured` (`bool(api_key)` and successful client
construction).  Returns the result dict paired with the trace of provider
requests issued. -/
def generate_stories (isConfigured : Bool) (modelName : String)
    (provider : Nat → Request → ProviderOutcome) (cfg : GenerationConfig) :
    GenerationResult × List Request :=
  if isConfigured = false then
    ({ stories := []
     , error := some "❌ Gemini API key not configured. Please add your API key to .env file." }, [])
  else
    match genLoop modelName provider cfg cfg.numberOfVariations 0 with
    | (Except.error msg, trace) =>
        ({ stories := [], error := some ("❌ Generation failed: " ++ msg) }, trace)
    | (Except.ok stories, trace) =>
        ({ stories := stories, error := none }, trace)

/-- The index list `[i, i+1, …, i+r-1]`, used to describe the loop's trace. -/
def idxList (i : Nat) : Nat → List Nat
  | 0 => []
  | r + 1 => i :: idxList (i + 1) r

theorem idxList_length (r : Nat) : ∀ i, (idxList i r).length = r := by
  induction r with
  | zero => intro i; rfl
  | succ r ih => intro i; simp [idxList, ih]

theorem idxList_getElem? (r : Nat) :
    ∀ i k, k < r → (idxList i r)[k]? = some (i + k) := by
  induction r with
  | zero => intro i k hk; omega
  | succ r ih =>
    intro i k hk
    cases k with
    | zero => simp [idxList]
    | succ k =>
      have hk' : k < r := by omega
      simp only [idxList, List.getElem?_cons_succ]
      rw [ih (i + 1) k hk']
      congr 1
      omega

theorem idxList_map_succ (r : Nat) :
    ∀ i, (idxList i r).map (fun k => k + 1) = idxList (i + 1) r := by
  induction r with
  | zero => intro i; rfl
  | succ r ih => intro i; simp [idxList, ih]

theorem mem_idxList (r : Nat) :
    ∀ i x, x ∈ idxList i r → i ≤ x ∧ x < i + r := by
  induction r with
  | zero => intro i x hx; simp [idxList] at hx
  | succ r ih =>
    intro i x hx
    simp only [idxList, List.mem_cons] at hx
    rcases hx with rfl | hx
    · omega
    · have := ih (i + 1) x hx
      omega

/-- Master lemma: when no provider call raises, the loop over `remaining`
variations starting at index `i` returns one story per index, built from that
index's response, and issues exactly one request per index. -/
theorem genLoop_spec (modelName : String) (provider : Nat → Request → ProviderOutcome)
    (cfg : GenerationConfig)
    (hno : ∀ i, (provider i (mkRequest modelName cfg i)).isExn = false) :
    ∀ remaining i, genLoop modelName provider cfg remaining i =
      (Except.ok ((idxList i remaining).map (fun k =>
          mkStory k (provider k (mkRequest modelName cfg k)).text
            (provider k (mkRequest modelName cfg k)).usage)),
       (idxList i remaining).map (fun k => mkRequest modelName cfg k)) := by
  intro remaining
  induction remaining with
  | zero => intro i; simp [genLoop, idxList]
  | succ r ih =>
    intro i
    have hi := hno i
    cases hp : provider i (mkRequest modelName cfg i) with
    | exn msg => rw [hp] at hi; simp [ProviderOutcome.isExn] at hi
    | ok t u =>
      simp only [genLoop, hp, ih (i + 1), idxList, List.map_cons]
      simp [ProviderOutcome.text, ProviderOutcome.usage, hp]

/-- When no provider call raises, `generate_stories` (with credentials
present) returns one story per requested variation, no batch error, and a
trace of exactly one primary-model request per variation. -/
theorem generate_stories_noexn (modelName : String)
    (provider : Nat → Request → ProviderOutcome) (cfg : GenerationConfig)
    (hno : ∀ i, (provider i (mkRequest modelName cfg i)).isExn = false) :
    generate_stories true modelName provider cfg =
      ({ stories := (idxList 0 cfg.numberOfVariations).map (fun k =>
            mkStory k (provider k (mkRequest modelName cfg k)).text
              (provider k (mkRequest modelName cfg k)).usage)
       , error := none },
       (idxList 0 cfg.numberOfVariations).map (fun k => mkRequest modelName cfg k)) := by
  simp [generate_stories, genLoop_spec modelName provider cfg hno]

/-- Every story list the loop can ever return (under any provider behaviour)
consists of records built by `mkStory`. -/
theorem genLoop_stories_shape (modelName : String)
    (provider : Nat → Request → ProviderOutcome) (cfg : GenerationConfig) :
    ∀ remaining i stories trace,
      genLoop modelName provider cfg remaining i = (Except.ok stories, trace) →
      ∀ s ∈ stories, ∃ k t u, s = mkStory k t u := by
  intro remaining
  induction remaining with
  | zero =>
    intro i stories trace h s hs
    simp only [genLoop, Prod.mk.injEq] at h
    rcases h with ⟨h1, -⟩
    cases h1
    simp at hs
  | succ r ih =>
    intro i stories trace h s hs
    simp only [genLoop] at h
    cases hp : provider i (mkRequest modelName cfg i) with
    | exn msg => rw [hp] at h; simp at h
    | ok t u =>
      rw [hp] at h
      cases hrec : genLoop modelName provider cfg r (i + 1) with
      | mk res tr =>
        cases res with
        | error msg => rw [hrec] at h; simp at h
        | ok rest =>
          rw [hrec] at h
          simp only [Prod.mk.injEq] at h
          rcases h with ⟨h1, -⟩
          cases h1
          rcases List.mem_cons.mp hs with rfl | hmem
          · exact ⟨i, t, u, rfl⟩
          · exact ih (i + 1) rest tr hrec s hmem

theorem str_append_assoc (a b c : String) : a ++ b ++ c = a ++ (b ++ c) := by
  cases a with
  | mk da =>
    cases b with
    | mk db =>
      cases c with
      | mk dc =>
        show String.mk (da ++ db ++ dc) = String.mk (da ++ (db ++ dc))
        rw [List.append_assoc]

theorem str_data_append (a b : String) : (a ++ b).data = a.data ++ b.data := by
  cases a with
  | mk da => cases b with
    | mk db => rfl

theorem placeholderText_ne_empty (n : Nat) : placeholderText n ≠ "" := by
  intro h
  have h2 := congrArg (fun s => s.data.length) h
  simp only [placeholderText, str_data_append, List.length_append] at h2
  have h3 : ("[Error: The model was unable to generate Variation ").data.length = 51 := rfl
  rw [h3] at h2
  simp at h2

theorem storyTextOf_ne_empty (i : Nat) (text : Option String) :
    storyTextOf i text ≠ "" := by
  unfold storyTextOf
  by_cases h : text.getD "" = ""
  · simp only [h, if_pos rfl]
    exact placeholderText_ne_empty (i + 1)
  · simp only [if_neg h]
    exact h

theorem storyTextOf_of_empty (i : Nat) (text : Option String)
    (h : text.getD "" = "") : storyTextOf i text = placeholderText (i + 1) := by
  unfold storyTextOf
  simp [h]

theorem storyTextOf_of_nonempty (i : Nat) (t : String) (h : t ≠ "") :
    storyTextOf i (some t) = t := by
  unfold storyTextOf
  simp [h]

/-- `chunk.retrieved_context` as used in `query_rag`
(`src/services/gemini_file_search.py` lines 157-162): an optional retrieved
context whose `title` may itself be `None`. -/
structure RetrievedContext where
  title : Option String
deriving DecidableEq

/-- One entry of `grounding_metadata.grounding_chunks`. -/
structure GroundingChunk where
  retrievedContext : Option RetrievedContext
deriving DecidableEq

/-- The citation title a chunk contributes, if any: chunks without a
`retrieved_context` are skipped; `title or "Unknown Source"` substitutes the
default when the title is `None` or empty (Python falsiness). -/
def chunkTitle : GroundingChunk → Option String
  | { retrievedContext := none } => none
  | { retrievedContext := some rc } =>
      some (match rc.title with
            | none => "Unknown Source"
            | some s => if s = "" then "Unknown Source" else s)

/-- The citation list accumulated by the `for chunk in ...` loop of
lines 157-162, before deduplication. -/
def collectCitations (chunks : List GroundingChunk) : List String :=
  chunks.filterMap chunkTitle

/-- `citations = list(set(citations))` (line 165).  A Python `set` yields the
distinct elements in an unspecified, hash-dependent order; this embedding
fixes first-occurrence order.  Theorems rely only on membership and on the
absence of duplicates, which hold for every order the set could yield. -/
def dedupCitations (l : List String) : List String :=
  l.dedup

/-- Outcome of the single `generate_content` call inside `query_rag`: a
response with optional text and the optional grounding-chunk list (`none`
models any of `candidates`, `grounding_metadata` or `grounding_chunks` being
absent or falsy), or a raised exception. -/
inductive RagOutcome where
  | ok (text : Option String) (chunks : Option (List GroundingChunk))
  | exn (msg : String)
deriving DecidableEq

/-- The dict returned by `query_rag`. -/
structure RagResult where
  answer : Option String
  citations : List String
  error : Option String
deriving DecidableEq

/-- `GeminiFileSearchService.query_rag` (lines 121-180), with the provider
call's outcome passed in. -/
def query_rag (isConfigured : Bool) (outcome : RagOutcome) : RagResult :=
  if isConfigured = false then
    { answer := none, citations := [], error := some "API Key missing" }
  else
    match outcome with
    | RagOutcome.exn msg =>
        { answer := none, citations := [], error := some ("❌ Query error: " ++ msg) }
    | RagOutcome.ok text chunks =>
        { answer := text
        , citations := dedupCitations (collectCitations (chunks.getD []))
        , error := none }

/-- A valid configuration used to instantiate hypotheses at concrete inputs:
non-empty idea, variation count within the UI bounds (`MIN_STORIES = 3`,
`MAX_STORIES = 10` in `src/config/settings.py`), temperature 0.8. -/
def cfgDetective : GenerationConfig :=
  { storyIdea := "A detective cat solves mysteries"
  , numberOfVariations := 3
  , targetWordCount := 500
  , temperature := 4 / 5 }

/-- A single-variation configuration for small concrete runs. -/
def cfgSolo : GenerationConfig :=
  { storyIdea := "A lighthouse keeper finds a message in a bottle"
  , numberOfVariations := 1
  , targetWordCount := 500
  , temperature := 4 / 5 }

/-- A valid configuration with a larger target word count, used to compare
token ceilings. -/
def cfgLong : GenerationConfig :=
  { storyIdea := "A detective cat solves mysteries"
  , numberOfVariations := 3
  , targetWordCount := 1000
  , temperature := 4 / 5 }

/-- A provider whose every response has empty text (no salvage). -/
def providerEmpty : Nat → Request → ProviderOutcome :=
  fun _ _ => ProviderOutcome.ok none none

/-- A provider that raises a transport exception on every call. -/
def providerRaise : Nat → Request → ProviderOutcome :=
  fun _ _ => ProviderOutcome.exn "network unreachable"

/-- A provider that returns the same complete text on every call. -/
def providerComplete : Nat → Request → ProviderOutcome :=
  fun _ _ => ProviderOutcome.ok (some "Rain hammered the tin roof of the old cinema.") (some 120)

/-- Claim C6: when credentials are missing (`is_configured` false),
`generate_stories` returns zero story records, a non-null batch-level error,
and performs no provider invocation at all. -/
theorem claim_C6_missing_credentials (modelName : String)
    (provider : Nat → Request → ProviderOutcome) (cfg : GenerationConfig) :
    ((generate_stories false modelName provider cfg).1).stories = [] ∧
    ((generate_stories false modelName provider cfg).1).error.isSome = true ∧
    (generate_stories false modelName provider cfg).2 = [] :=
  ⟨rfl, rfl, rfl⟩

/-- Claim C9: for every configuration and 0-based loop index `i` (1-based
variation number `i + 1`), the built request's prompt embeds the story idea,
the variation number, and the target word count, and its safety configuration
sets threshold BLOCK_NONE for all four hazard categories.  `mkRequest` is a
total function, so request construction has no error conditions. -/
theorem claim_C9_request_builder (modelName : String) (cfg : GenerationConfig) (i : Nat) :
    (∃ a b, (mkRequest modelName cfg i).prompt = a ++ cfg.storyIdea ++ b) ∧
    (∃ a b, (mkRequest modelName cfg i).prompt = a ++ toString (i + 1) ++ b) ∧
    (∃ a b, (mkRequest modelName cfg i).prompt = a ++ toString cfg.targetWordCount ++ b) ∧
    (mkRequest modelName cfg i).safety =
      [("HARM_CATEGORY_HARASSMENT", "BLOCK_NONE"),
       ("HARM_CATEGORY_HATE_SPEECH", "BLOCK_NONE"),
       ("HARM_CATEGORY_SEXUALLY_EXPLICIT", "BLOCK_NONE"),
       ("HARM_CATEGORY_DANGEROUS_CONTENT", "BLOCK_NONE")] := by
  refine ⟨⟨promptPart1,
           promptPart2 ++ toString (i + 1) ++ promptPart3 ++
             toString cfg.targetWordCount ++ promptPart4, ?_⟩,
          ⟨promptPart1 ++ cfg.storyIdea ++ promptPart2,
           promptPart3 ++ toString cfg.targetWordCount ++ promptPart4, ?_⟩,
          ⟨promptPart1 ++ cfg.storyIdea ++ promptPart2 ++ toString (i + 1) ++ promptPart3,
           promptPart4, ?_⟩, rfl⟩ <;>
    simp only [mkRequest, buildPrompt, str_append_assoc]

/-- Claim C8 counterexample: the hard output-token ceiling is not decoupled
from the requested word count — it changes when only the target word count
changes (750 for a 500-word target, 1500 for a 1000-word target). -/
theorem claim_C8_counterexample :
    (mkRequest "gemini-1.5-pro" cfgDetective 0).maxOutputTokens = 750 ∧
    (mkRequest "gemini-1.5-pro" cfgLong 0).maxOutputTokens = 1500 ∧
    (mkRequest "gemini-1.5-pro" cfgDetective 0).maxOutputTokens ≠
      (mkRequest "gemini-1.5-pro" cfgLong 0).maxOutputTokens :=
  ⟨rfl, rfl, by decide⟩

/-- Claim C8 (amended): the output-token ceiling passed to the provider is
computed from the requested word count as `⌊1.5 · w⌋ = 3·w / 2`, and that
word count also appears in the prompt text as an instruction. -/
theorem claim_C8_amended_token_ceiling (modelName : String) (cfg : GenerationConfig) (i : Nat) :
    (mkRequest modelName cfg i).maxOutputTokens = 3 * cfg.targetWordCount / 2 ∧
    ∃ a b, (mkRequest modelName cfg i).prompt = a ++ toString cfg.targetWordCount ++ b := by
  refine ⟨rfl,
    ⟨promptPart1 ++ cfg.storyIdea ++ promptPart2 ++ toString (i + 1) ++ promptPart3,
     promptPart4, ?_⟩⟩
  simp only [mkRequest, buildPrompt, str_append_assoc]

/-- Claim C10: `query_rag` deduplicates the collected citation titles before
returning them — the returned citation list has no duplicate titles, and its
members are exactly the titles collected from the grounding chunks. -/
theorem claim_C10_citations_nodup (text : Option String)
    (chunks : Option (List GroundingChunk)) :
    (query_rag true (RagOutcome.ok text chunks)).citations.Nodup ∧
    ∀ s, s ∈ (query_rag true (RagOutcome.ok text chunks)).citations ↔
      s ∈ collectCitations (chunks.getD []) := by
  constructor
  · simp only [query_rag, dedupCitations]
    exact List.nodup_dedup _
  · intro s
    simp only [query_rag, dedupCitations]
    exact List.mem_dedup

/-- Claim C4: every story record `generate_stories` ever returns has
`word_count` equal to the whitespace-token count of `content`, and `content`
is a non-empty string (a placeholder on total failure, never empty). -/
theorem claim_C4_word_count_invariant (isConfigured : Bool) (modelName : String)
    (provider : Nat → Request → ProviderOutcome) (cfg : GenerationConfig)
    (s : Story)
    (hs : s ∈ ((generate_stories isConfigured modelName provider cfg).1).stories) :
    s.wordCount = pyWordCount s.content ∧ s.content ≠ "" := by
  cases isConfigured with
  | false => simp [generate_stories] at hs
  | true =>
    simp only [generate_stories] at hs
    cases hg : genLoop modelName provider cfg cfg.numberOfVariations 0 with
    | mk res trace =>
      cases res with
      | error msg => rw [hg] at hs; simp at hs
      | ok stories =>
        rw [hg] at hs
        simp only [Bool.true_eq_false, if_false] at hs
        obtain ⟨k, t, u, rfl⟩ :=
          genLoop_stories_shape modelName provider cfg cfg.numberOfVariations 0
            stories trace hg s hs
        exact ⟨rfl, storyTextOf_ne_empty k t⟩

/-- Claim C4 witness: a concrete run returning one real story, on which the
invariant is discharged at a concrete input. -/
theorem claim_C4_witness :
    (mkStory 0 (some "Rain hammered the tin roof of the old cinema.") (some 120)) ∈
      ((generate_stories true "gemini-1.5-pro" providerComplete cfgSolo).1).stories ∧
    ((mkStory 0 (some "Rain hammered the tin roof of the old cinema.") (some 120)).wordCount =
        pyWordCount
          (mkStory 0 (some "Rain hammered the tin roof of the old cinema.") (some 120)).content ∧
      (mkStory 0 (some "Rain hammered the tin roof of the old cinema.") (some 120)).content ≠ "") :=
  ⟨by decide,
   claim_C4_word_count_invariant true "gemini-1.5-pro" providerComplete cfgSolo
     (mkStory 0 (some "Rain hammered the tin roof of the old cinema.") (some 120))
     (by decide)⟩

/-- Claim C7: when no attempt raises and variation `i`'s primary attempt
returns usable non-empty text `t`, the resulting variation's content is `t`
verbatim, and the call trace holds exactly one request per variation, whose
`i`-th entry is variation `i`'s single (primary) request — no fallback call
occurs. -/
theorem claim_C7_complete_primary (modelName : String)
    (provider : Nat → Request → ProviderOutcome) (cfg : GenerationConfig)
    (hno : ∀ i, (provider i (mkRequest modelName cfg i)).isExn = false)
    (i : Nat) (hi : i < cfg.numberOfVariations) (t : String) (u : Option Nat)
    (hp : provider i (mkRequest modelName cfg i) = ProviderOutcome.ok (some t) u)
    (ht : t ≠ "") :
    ((((generate_stories true modelName provider cfg).1).stories).map Story.content)[i]? =
      some t ∧
    ((generate_stories true modelName provider cfg).2).length = cfg.numberOfVariations ∧
    ((generate_stories true modelName provider cfg).2)[i]? =
      some (mkRequest modelName cfg i) := by
  rw [generate_stories_noexn modelName provider cfg hno]
  refine ⟨?_, ?_, ?_⟩
  · rw [List.map_map, List.getElem?_map, idxList_getElem? _ 0 i hi]
    simp [mkStory, ProviderOutcome.text, hp, storyTextOf_of_nonempty i t ht]
  · rw [List.length_map, idxList_length]
  · rw [List.getElem?_map, idxList_getElem? _ 0 i hi]
    simp

/-- Claim C7 witness: a concrete run whose primary attempt is complete; the
theorem is applied at that input. -/
theorem claim_C7_witness :
    (0 < cfgSolo.numberOfVariations ∧
      "Rain hammered the tin roof of the old cinema." ≠ "") ∧
    (((((generate_stories true "gemini-1.5-pro" providerComplete cfgSolo).1).stories).map
        Story.content)[0]? =
      some "Rain hammered the tin roof of the old cinema." ∧
    ((generate_stories true "gemini-1.5-pro" providerComplete cfgSolo).2).length =
      cfgSolo.numberOfVariations ∧
    ((generate_stories true "gemini-1.5-pro" providerComplete cfgSolo).2)[0]? =
      some (mkRequest "gemini-1.5-pro" cfgSolo 0)) :=
  ⟨⟨by decide, by decide⟩,
   claim_C7_complete_primary "gemini-1.5-pro" providerComplete cfgSolo
     (fun _ => rfl) 0 (by decide)
     "Rain hammered the tin roof of the old cinema." (some 120) rfl (by decide)⟩

/-- Claim C1 counterexample: a run whose primary attempt yields no usable
text (response text `None`, no salvage), yet the service issues exactly one
provider request for that variation — the primary one — and never a second,
fallback invocation (the claim requires two calls for such a variation). -/
theorem claim_C1_counterexample :
    (providerEmpty 0 (mkRequest "gemini-1.5-pro" cfgSolo 0)).text = none ∧
    (generate_stories true "gemini-1.5-pro" providerEmpty cfgSolo).2 =
      [mkRequest "gemini-1.5-pro" cfgSolo 0] ∧
    ((generate_stories true "gemini-1.5-pro" providerEmpty cfgSolo).2).length ≠ 2 :=
  ⟨rfl, rfl, by decide⟩

/-- Claim C1 (amended): there is no fallback model — whatever each attempt
returns (as long as none raises), `generate_stories` issues exactly one
provider request per variation, every one of them against the primary model;
a variation whose single attempt yields no usable text receives a
placeholder, with no further call. -/
theorem claim_C1_amended_no_fallback (modelName : String)
    (provider : Nat → Request → ProviderOutcome) (cfg : GenerationConfig)
    (hno : ∀ i, (provider i (mkRequest modelName cfg i)).isExn = false) :
    (generate_stories true modelName provider cfg).2 =
      (idxList 0 cfg.numberOfVariations).map (fun k => mkRequest modelName cfg k) ∧
    ∀ req ∈ (generate_stories true modelName provider cfg).2, req.model = modelName := by
  rw [generate_stories_noexn modelName provider cfg hno]
  refine ⟨rfl, ?_⟩
  intro req hreq
  obtain ⟨k, -, rfl⟩ := List.mem_map.mp hreq
  rfl

/-- Claim C1 (amended) witness: the amended theorem applied to the concrete
run whose every attempt returns empty text. -/
theorem claim_C1_amended_witness :
    (∀ i, (providerEmpty i (mkRequest "gemini-1.5-pro" cfgSolo i)).isExn = false) ∧
    ((generate_stories true "gemini-1.5-pro" providerEmpty cfgSolo).2 =
      (idxList 0 cfgSolo.numberOfVariations).map (fun k => mkRequest "gemini-1.5-pro" cfgSolo k) ∧
    ∀ req ∈ (generate_stories true "gemini-1.5-pro" providerEmpty cfgSolo).2,
      req.model = "gemini-1.5-pro") :=
  ⟨fun _ => rfl,
   claim_C1_amended_no_fallback "gemini-1.5-pro" providerEmpty cfgSolo (fun _ => rfl)⟩

/-- Claim C2 counterexample: a valid configuration (non-empty idea, 3
variations, credentials present) together with a provider whose attempt
raises a transport exception: `generate_stories` returns zero story records,
not the requested three. -/
theorem claim_C2_counterexample :
    cfgDetective.storyIdea ≠ "" ∧
    cfgDetective.numberOfVariations = 3 ∧
    ((generate_stories true "gemini-1.5-pro" providerRaise cfgDetective).1).stories.length = 0 ∧
    ((generate_stories true "gemini-1.5-pro" providerRaise cfgDetective).1).stories.length ≠
      cfgDetective.numberOfVariations :=
  ⟨by decide, rfl, rfl, by decide⟩

/-- Claim C2 (amended): provided no provider attempt raises an exception,
`generate_stories` with credentials present returns exactly N story records
whose ids are 1..N in generation order. -/
theorem claim_C2_amended_all_slots (modelName : String)
    (provider : Nat → Request → ProviderOutcome) (cfg : GenerationConfig)
    (hno : ∀ i, (provider i (mkRequest modelName cfg i)).isExn = false) :
    (((generate_stories true modelName provider cfg).1).stories).length =
      cfg.numberOfVariations ∧
    (((generate_stories true modelName provider cfg).1).stories).map Story.id =
      idxList 1 cfg.numberOfVariations := by
  rw [generate_stories_noexn modelName provider cfg hno]
  constructor
  · rw [List.length_map, idxList_length]
  · rw [List.map_map]
    have h : (Story.id ∘ fun k =>
        mkStory k (provider k (mkRequest modelName cfg k)).text
          (provider k (mkRequest modelName cfg k)).usage) = fun k => k + 1 :=
      funext fun k => rfl
    rw [h]
    exact idxList_map_succ _ 0

/-- Claim C2 (amended) witness: the amended theorem applied to a concrete
3-variation run with complete responses. -/
theorem claim_C2_amended_witness :
    (∀ i, (providerComplete i (mkRequest "gemini-1.5-pro" cfgDetective i)).isExn = false) ∧
    ((((generate_stories true "gemini-1.5-pro" providerComplete cfgDetective).1).stories).length =
      cfgDetective.numberOfVariations ∧
    (((generate_stories true "gemini-1.5-pro" providerComplete cfgDetective).1).stories).map
        Story.id = idxList 1 cfgDetective.numberOfVariations) :=
  ⟨fun _ => rfl,
   claim_C2_amended_all_slots "gemini-1.5-pro" providerComplete cfgDetective (fun _ => rfl)⟩

/-- Claim C3 counterexample: with credentials present, a provider transport
fault (raised exception) — not a ConfigurationFault — surfaces as a
batch-level error and empties the batch. -/
theorem claim_C3_counterexample :
    ((generate_stories true "gemini-1.5-pro" providerRaise cfgSolo).1).error =
      some "❌ Generation failed: network unreachable" ∧
    ((generate_stories true "gemini-1.5-pro" providerRaise cfgSolo).1).stories = [] :=
  ⟨rfl, rfl⟩

/-- Claim C3 (amended): failures that yield a response rather than raising
(empty text, content filtering, truncation) are absorbed into the affected
variation's own content and produce no batch-level error and no missing
slot; but a raised provider exception, like a ConfigurationFault, surfaces
as a batch-level error. -/
theorem claim_C3_amended_absorbed (modelName : String)
    (provider : Nat → Request → ProviderOutcome) (cfg : GenerationConfig)
    (hno : ∀ i, (provider i (mkRequest modelName cfg i)).isExn = false) :
    ((generate_stories true modelName provider cfg).1).error = none ∧
    (((generate_stories true modelName provider cfg).1).stories).length =
      cfg.numberOfVariations := by
  rw [generate_stories_noexn modelName provider cfg hno]
  exact ⟨rfl, by rw [List.length_map, idxList_length]⟩

/-- Claim C3 (amended) witness: the amended theorem applied to a run whose
every response is empty (total per-variation failure), which is absorbed. -/
theorem claim_C3_amended_witness :
    (∀ i, (providerEmpty i (mkRequest "gemini-1.5-pro" cfgDetective i)).isExn = false) ∧
    (((generate_stories true "gemini-1.5-pro" providerEmpty cfgDetective).1).error = none ∧
    (((generate_stories true "gemini-1.5-pro" providerEmpty cfgDetective).1).stories).length =
      cfgDetective.numberOfVariations) :=
  ⟨fun _ => rfl,
   claim_C3_amended_absorbed "gemini-1.5-pro" providerEmpty cfgDetective (fun _ => rfl)⟩

set_option maxRecDepth 4000 in
/-- Claim C5 counterexample: when the single attempt yields no usable text,
the slot's content is the fixed placeholder, which does not name the model
that produced the failure (the model identifier is not a substring of it),
and only one provider call was made (there is no fallback attempt). -/
theorem claim_C5_counterexample :
    (((generate_stories true "gemini-1.5-pro" providerEmpty cfgSolo).1).stories).map
        Story.content = [placeholderText 1] ∧
    ¬ ("gemini-1.5-pro".data <:+: (placeholderText 1).data) ∧
    ((generate_stories true "gemini-1.5-pro" providerEmpty cfgSolo).2).length = 1 :=
  ⟨rfl, by decide, rfl⟩

/-- Claim C5 (amended): when no attempt raises and variation `i`'s single
(primary) attempt yields no usable text, that variation's content is the
non-empty placeholder string, which names the variation number and generic
possible causes, rather than failing the batch or leaving the slot blank. -/
theorem claim_C5_amended_placeholder (modelName : String)
    (provider : Nat → Request → ProviderOutcome) (cfg : GenerationConfig)
    (hno : ∀ i, (provider i (mkRequest modelName cfg i)).isExn = false)
    (i : Nat) (hi : i < cfg.numberOfVariations)
    (he : (provider i (mkRequest modelName cfg i)).text.getD "" = "") :
    ((((generate_stories true modelName provider cfg).1).stories).map Story.content)[i]? =
      some (placeholderText (i + 1)) ∧
    placeholderText (i + 1) ≠ "" ∧
    ∃ a b, placeholderText (i + 1) = a ++ toString (i + 1) ++ b := by
  refine ⟨?_, placeholderText_ne_empty (i + 1),
    ⟨"[Error: The model was unable to generate Variation ",
     ". It may have been overloaded or triggered a strict filter.]", rfl⟩⟩
  rw [generate_stories_noexn modelName provider cfg hno]
  rw [List.map_map, List.getElem?_map, idxList_getElem? _ 0 i hi]
  simp only [Nat.zero_add, Option.map_some, Function.comp_apply]
  simp [mkStory, storyTextOf_of_empty i _ he]

/-- Claim C5 (amended) witness: the amended theorem applied to the concrete
empty-response run. -/
theorem claim_C5_amended_witness :
    (0 < cfgSolo.numberOfVariations ∧
      (providerEmpty 0 (mkRequest "gemini-1.5-pro" cfgSolo 0)).text.getD "" = "") ∧
    (((((generate_stories true "gemini-1.5-pro" providerEmpty cfgSolo).1).stories).map
        Story.content)[0]? = some (placeholderText 1) ∧
    placeholderText 1 ≠ "" ∧
    ∃ a b, placeholderText 1 = a ++ toString 1 ++ b) :=
  ⟨⟨by decide, rfl⟩,
   claim_C5_amended_placeholder "gemini-1.5-pro" providerEmpty cfgSolo
     (fun _ => rfl) 0 (by decide) rfl⟩

end CinemaOS
